import Mathlib

/-!
Verification of the UI-widget library: shallow embedding of the widget
classes (LoopSlider, MouseStalker, Accordion, ScrollProgressAnimation,
TextReveal), the bootstrap entry function and the build configuration,
together with proofs of the specified properties.

JS numbers are modelled as rationals (`ℚ`); `Math.ceil` is `Int.ceil`.
DOM and scheduler effects are modelled by explicit state records and
effect lists.  All embedded constructors and handlers are total Lean
functions, which models the fact that the corresponding JS code returns
normally (does not throw) on the modelled inputs.
-/

namespace LoopSlider

/-- Options of the LoopSlider constructor that the animation loop reads
(`speed`, `reverse`, `effect === 'scroll'`, `scrollSpeed`, `inertia`). -/
structure Options where
  speed : ℚ
  reverse : Bool
  effectScroll : Bool
  scrollSpeed : ℚ
  inertia : ℚ
  deriving DecidableEq

/-- Mutable fields of a LoopSlider instance used by `updatePosition`. -/
structure State where
  baseX : ℚ
  dragX : ℚ
  velocity : ℚ
  isDragging : Bool
  smoothedScrollY : ℚ
  lastSmoothedScrollY : ℚ
  totalWidth : ℚ
  deriving DecidableEq

/-- Per-frame inputs of `updatePosition`: the elapsed time
`(timestamp - lastFrameTime) / 1000`, the current `window.scrollY`, and
the value of `Math.pow(this.options.inertia, dt * 60)` (a transcendental
computed by the numeric environment, supplied as an input). -/
structure FrameInput where
  deltaTime : ℚ
  scrollY : ℚ
  powFriction : ℚ
  deriving DecidableEq

/-- Loop-range correction of `updatePosition` (LoopSlider.js lines
231-249): keeps `baseX` in the band so that `baseX + dragX` lies between
`loopMin = -totalWidth * 2` and `loopMax = -totalWidth`, shifting by
`Math.ceil(diff / totalWidth)` periods. -/
def loopCorrect (totalWidth baseX dragX : ℚ) : ℚ :=
  if baseX + dragX < -totalWidth * 2 then
    baseX + totalWidth * (⌈(-totalWidth * 2 - (baseX + dragX)) / totalWidth⌉ : ℚ)
  else if -totalWidth < baseX + dragX then
    baseX - totalWidth * (⌈(baseX + dragX - -totalWidth) / totalWidth⌉ : ℚ)
  else
    baseX

/-- The part of `updatePosition` that precedes the loop-range correction
(LoopSlider.js lines 184-229): time-delta clamping, scroll-lerp, auto
scroll and drag inertia. -/
def advance (opts : Options) (s : State) (inp : FrameInput) : State :=
  let dt := if inp.deltaTime > 1/10 then (1 : ℚ)/10 else inp.deltaTime
  let direction : ℚ := if opts.reverse then -1 else 1
  let smoothed :=
    if opts.effectScroll then
      s.smoothedScrollY + (inp.scrollY - s.smoothedScrollY) * (1/10)
    else s.smoothedScrollY
  let scrollMove :=
    if opts.effectScroll then (smoothed - s.lastSmoothedScrollY) * opts.scrollSpeed
    else 0
  let lastSm := if opts.effectScroll then smoothed else s.lastSmoothedScrollY
  let baseX1 :=
    if s.isDragging = false then
      s.baseX - (opts.speed * dt + (if opts.effectScroll then scrollMove else 0)) * direction
    else s.baseX
  if s.isDragging = false ∧ 10 < |s.velocity| then
    { baseX := baseX1, dragX := s.dragX + s.velocity * dt,
      velocity := s.velocity * inp.powFriction, isDragging := s.isDragging,
      smoothedScrollY := smoothed, lastSmoothedScrollY := lastSm,
      totalWidth := s.totalWidth }
  else if s.isDragging = false ∧ s.dragX ≠ 0 then
    { baseX := baseX1 + s.dragX, dragX := 0, velocity := 0,
      isDragging := s.isDragging, smoothedScrollY := smoothed,
      lastSmoothedScrollY := lastSm, totalWidth := s.totalWidth }
  else
    { baseX := baseX1, dragX := s.dragX, velocity := s.velocity,
      isDragging := s.isDragging, smoothedScrollY := smoothed,
      lastSmoothedScrollY := lastSm, totalWidth := s.totalWidth }

/-- One animation-frame update (`updatePosition`): advance the position,
apply the loop-range correction, and return the new state together with
the rendered position `finalX = baseX + dragX`. -/
def updatePosition (opts : Options) (s : State) (inp : FrameInput) : State × ℚ :=
  let a := advance opts s inp
  let corrected := loopCorrect s.totalWidth a.baseX a.dragX
  ({ a with baseX := corrected }, corrected + a.dragX)

/-- `updateDimensions` (LoopSlider.js lines 146-157): recompute
`slideWidth = slides[0].offsetWidth + gap` and
`totalWidth = slideWidth * slides.length`, then when `totalWidth > 0`
set `baseX = (baseX / totalWidth) * totalWidth`.  Returns
`(slideWidth, totalWidth, baseX)`. -/
def updateDimensions (offsetWidth gap : ℚ) (numSlides : ℕ) (baseX : ℚ) :
    ℚ × ℚ × ℚ :=
  let slideWidth := offsetWidth + gap
  let totalWidth := slideWidth * (numSlides : ℚ)
  if 0 < totalWidth then
    (slideWidth, totalWidth, baseX / totalWidth * totalWidth)
  else
    (slideWidth, totalWidth, baseX)

end LoopSlider

namespace ViteConfig

/-- End-anchored literal match of `p` at the end of `s`, on the character
sequence of the string: the semantics of the `$`-anchored alternatives of
the regexes in `vite.config.js`. -/
def strEndsWith (s p : String) : Bool := p.data.isSuffixOf s.data

/-- The six suffixes matched by `/\.(gif|jpe?g|png|svg|webp)$/`. -/
def imageSuffixes : List String :=
  [".gif", ".jpg", ".jpeg", ".png", ".svg", ".webp"]

/-- `assetFileNames` from `vite.config.js`: image extensions go to
`assets/image/`, `.css` to `assets/scss/`, everything else to `assets/`;
an absent name is treated as `''` (the `name ?? ''` fallback). -/
def assetFileNames (name : Option String) : String :=
  let n := name.getD ""
  if imageSuffixes.any (fun suf => strEndsWith n suf) then
    "assets/image/[name][extname]"
  else if strEndsWith n ".css" then
    "assets/scss/[name][extname]"
  else
    "assets/[name][extname]"

/-- `entryFileNames` from `vite.config.js`. -/
def entryFileNames : String := "assets/js/[name].js"

/-- `chunkFileNames` from `vite.config.js`. -/
def chunkFileNames : String := "assets/js/[name].js"

end ViteConfig

namespace Widget

/-- Externally visible effects a widget initializer can have: console
output, DOM mutation, event-listener registration and animation-frame
requests. -/
inductive Effect where
  | consoleWarn (msg : String)
  | domMutation (description : String)
  | addListener (target eventName : String)
  | requestFrame
  deriving DecidableEq

/-- An effect is a DOM mutation. -/
def Effect.isDomMutation : Effect → Bool
  | .domMutation _ => true
  | _ => false

end Widget

namespace AccordionInit

/-- An accordion item as seen by `Accordion.init`: whether it contains a
trigger element. -/
structure Item where
  hasTrigger : Bool
  deriving DecidableEq

/-- Effects of `Accordion.init`: one click listener per item that has a
trigger, for every matched container. -/
def initEffects (containers : List (List Item)) : List Widget.Effect :=
  (containers.map (fun items =>
    items.filterMap (fun it =>
      if it.hasTrigger then some (Widget.Effect.addListener "trigger" "click")
      else none))).flatten

/-- The `Accordion` constructor: when the selector matches no container it
logs a console warning and returns without running `init`; otherwise it
runs `init`.  Returns whether `init` ran, and the effect list. -/
def construct (selector : String) (containers : List (List Item)) :
    Bool × List Widget.Effect :=
  if containers.length = 0 then
    (false,
     [Widget.Effect.consoleWarn
        ("Accordion: No elements found for selector \"" ++ selector ++ "\"")])
  else
    (true, initEffects containers)

end AccordionInit

namespace LoopSliderInit

/-- Effects of `LoopSlider.init` (setupSlider, startAutoScroll,
setupDraggable, setupResize) once the guards have passed. -/
def initEffects (draggable : Bool) : List Widget.Effect :=
  [Widget.Effect.domMutation "create wrapper, move slides, append 3 clone sets",
   Widget.Effect.domMutation "assign wrapper and slide styles",
   Widget.Effect.requestFrame] ++
  (if draggable then
    [Widget.Effect.domMutation "container cursor grab",
     Widget.Effect.addListener "container" "mousedown",
     Widget.Effect.addListener "container" "touchstart",
     Widget.Effect.addListener "document" "mousemove",
     Widget.Effect.addListener "document" "touchmove",
     Widget.Effect.addListener "document" "mouseup",
     Widget.Effect.addListener "document" "touchend"]
  else
    [Widget.Effect.domMutation "container cursor cleared"]) ++
  [Widget.Effect.addListener "window" "resize"]

/-- The `LoopSlider` constructor guards: `container` is `none` when the
selector matched nothing, otherwise `some n` with `n` the number of child
slides.  A missing container or zero slides returns silently (no effects,
`init` not run). -/
def construct (draggable : Bool) (container : Option ℕ) :
    Bool × List Widget.Effect :=
  match container with
  | none => (false, [])
  | some numSlides =>
    if numSlides = 0 then (false, [])
    else (true, initEffects draggable)

end LoopSliderInit

namespace SPA

/-- A `ScrollProgressAnimation` instance after its constructor ran:
whether the container and progress elements were found, how many items
matched, and how many ScrollTriggers have been created. -/
structure Instance where
  container : Bool
  progress : Bool
  numItems : ℕ
  scrollTriggers : ℕ
  deriving DecidableEq

/-- `isValid`: `this.container && this.progress && this.items.length > 0`. -/
def isValid (a : Instance) : Bool :=
  a.container && a.progress && decide (0 < a.numItems)

/-- The constructor: queries the DOM and starts with no ScrollTriggers. -/
def construct (containerFound progressFound : Bool) (numItems : ℕ) : Instance :=
  { container := containerFound, progress := progressFound,
    numItems := numItems, scrollTriggers := 0 }

/-- `init()`: when `isValid` fails, return the instance unchanged;
otherwise `animateProgress` creates one ScrollTrigger and `animateItems`
one per item. -/
def init (a : Instance) : Instance :=
  if isValid a then
    { a with scrollTriggers := a.scrollTriggers + 1 + a.numItems }
  else a

end SPA

namespace MouseStalkerInit

/-- Environment facts the `MouseStalker` constructor guards on. -/
structure Env where
  hasWindow : Bool
  hasDocument : Bool
  prefersReducedMotion : Bool
  pointerFine : Bool
  deriving DecidableEq

/-- Observable result of running the `MouseStalker` constructor: DOM
elements created, whether the stalker was appended to `document.body`,
listeners registered, and whether an animation frame was requested. -/
structure CtorResult where
  createdElements : ℕ
  bodyAppended : Bool
  listeners : List String
  rafRequested : Bool
  deriving DecidableEq

/-- Result of a constructor run that returned through one of the early
guards: nothing created, nothing registered. -/
def emptyResult : CtorResult :=
  { createdElements := 0, bodyAppended := false, listeners := [],
    rafRequested := false }

/-- The `MouseStalker` constructor: after merging the config it returns
early when `window`/`document` are undefined, when
`prefers-reduced-motion` is set, or when the pointer is not fine;
otherwise `init()` creates the container and text elements, appends them
to the body, binds five listeners and requests a frame (`render`). -/
def construct (env : Env) : CtorResult :=
  if env.hasWindow = false ∨ env.hasDocument = false then emptyResult
  else if env.prefersReducedMotion then emptyResult
  else if env.pointerFine = false then emptyResult
  else
    { createdElements := 2, bodyAppended := true,
      listeners := ["pointermove", "pointerover", "pointerout",
                    "pointerleave", "blur"],
      rafRequested := true }

end MouseStalkerInit

namespace Debounce

/-- Scheduler footprint of LoopSlider's debounced resize handling: the
pending `setTimeout` entries of this instance (id and delay in ms), the
stored `resizeTimeout` id, the next fresh timer id, and how many times
`updateDimensions` has run. -/
structure State where
  timers : List (ℕ × ℕ)
  resizeTimeout : Option ℕ
  nextId : ℕ
  updateCount : ℕ
  deriving DecidableEq

/-- State of a freshly constructed slider: no pending timer
(`resizeTimeout = null`). -/
def startState : State :=
  { timers := [], resizeTimeout := none, nextId := 0, updateCount := 0 }

/-- `handleResize` (LoopSlider.js lines 163-170): clear the previously
stored timeout if any, then schedule `updateDimensions` 150 ms later and
remember the new timer id. -/
def handleResize (s : State) : State :=
  let cleared :=
    match s.resizeTimeout with
    | some id => s.timers.filter (fun e => e.1 ≠ id)
    | none => s.timers
  { timers := cleared ++ [(s.nextId, 150)], resizeTimeout := some s.nextId,
    nextId := s.nextId + 1, updateCount := s.updateCount }

/-- The browser fires the pending timeout with the given id: the timer
leaves the queue and its callback runs `updateDimensions` once.  Firing an
id that is not pending does nothing. -/
def fireTimer (s : State) (id : ℕ) : State :=
  if s.timers.any (fun e => e.1 = id) then
    { timers := s.timers.filter (fun e => e.1 ≠ id),
      resizeTimeout := s.resizeTimeout, nextId := s.nextId,
      updateCount := s.updateCount + 1 }
  else s

/-- Fire every pending timer of the instance. -/
def flushAll (s : State) : State :=
  s.timers.foldl (fun acc e => fireTimer acc e.1) s

/-- Scheduler invariant of the debounce: every pending timer of the
instance is the one stored in `resizeTimeout`, and at most one is
pending. -/
def Inv (s : State) : Prop :=
  (∀ e ∈ s.timers, s.resizeTimeout = some e.1) ∧ s.timers.length ≤ 1

instance (s : State) : Decidable (Inv s) := by
  unfold Inv; infer_instance

end Debounce

namespace LSSched

/-- Scheduler footprint of one LoopSlider instance: pending
animation-frame callback ids, pending timeout ids, the stored
`this.animation` and `this.resizeTimeout` ids, the registered event
listeners, and the next fresh callback id. -/
structure State where
  rafQueue : List ℕ
  timerQueue : List ℕ
  animation : Option ℕ
  resizeTimeout : Option ℕ
  listeners : List String
  nextId : ℕ
  deriving DecidableEq

/-- Footprint after `init()`: `startAutoScroll` requested one frame,
`setupDraggable` registered the pointer listeners (when draggable), and
`setupResize` registered the resize listener. -/
def init (draggable : Bool) : State :=
  { rafQueue := [0], timerQueue := [], animation := some 0,
    resizeTimeout := none,
    listeners :=
      (if draggable then
        ["mousedown", "touchstart", "mousemove", "touchmove",
         "mouseup", "touchend"]
      else []) ++ ["resize"],
    nextId := 1 }

/-- The browser fires the pending animation frame `id`: `updatePosition`
runs and unconditionally requests the next frame, storing its id in
`this.animation`. -/
def fireRaf (s : State) (id : ℕ) : State :=
  { rafQueue := s.rafQueue.filter (fun i => i ≠ id) ++ [s.nextId],
    timerQueue := s.timerQueue, animation := some s.nextId,
    resizeTimeout := s.resizeTimeout, listeners := s.listeners,
    nextId := s.nextId + 1 }

/-- A resize event is delivered to `handleResize`: clear the stored
timeout and schedule a fresh one. -/
def handleResize (s : State) : State :=
  { rafQueue := s.rafQueue,
    timerQueue :=
      (match s.resizeTimeout with
      | some id => s.timerQueue.filter (fun i => i ≠ id)
      | none => s.timerQueue) ++ [s.nextId],
    animation := s.animation, resizeTimeout := some s.nextId,
    listeners := s.listeners, nextId := s.nextId + 1 }

/-- The browser fires the pending timeout `id` (`updateDimensions` runs,
scheduling nothing). -/
def fireTimer (s : State) (id : ℕ) : State :=
  { s with timerQueue := s.timerQueue.filter (fun i => i ≠ id) }

/-- `destroy()` (LoopSlider.js lines 328-346): cancel the stored
animation frame and the stored timeout, and remove every listener the
instance registered. -/
def destroy (s : State) : State :=
  { rafQueue :=
      match s.animation with
      | some id => s.rafQueue.filter (fun i => i ≠ id)
      | none => s.rafQueue,
    timerQueue :=
      match s.resizeTimeout with
      | some id => s.timerQueue.filter (fun i => i ≠ id)
      | none => s.timerQueue,
    animation := s.animation, resizeTimeout := s.resizeTimeout,
    listeners := [], nextId := s.nextId }

/-- The ways the browser can run code of this instance: firing a pending
animation frame, delivering an event to a registered listener (the
resize listener debounces, the pointer listeners schedule nothing), or
firing a pending timeout. -/
inductive Step : State → State → Prop where
  | raf (s : State) (id : ℕ) (h : id ∈ s.rafQueue) : Step s (fireRaf s id)
  | resize (s : State) (h : "resize" ∈ s.listeners) : Step s (handleResize s)
  | pointer (s : State) (ev : String) (h : ev ∈ s.listeners)
      (hne : ev ≠ "resize") : Step s s
  | timer (s : State) (id : ℕ) (h : id ∈ s.timerQueue) : Step s (fireTimer s id)

/-- Scheduler invariant: the stored `animation` id is the only pending
frame and the stored `resizeTimeout` id is the only pending timeout
(every `requestAnimationFrame`/`setTimeout` immediately stores its id). -/
def Inv (s : State) : Prop :=
  (∀ i ∈ s.rafQueue, s.animation = some i) ∧
    (∀ i ∈ s.timerQueue, s.resizeTimeout = some i)

instance (s : State) : Decidable (Inv s) := by
  unfold Inv; infer_instance

end LSSched

namespace MSSched

/-- Scheduler footprint of one MouseStalker instance: pending
animation-frame ids, pending timeout entries `(id, tracked)` where
`tracked` marks the fade timer stored in `this.textTimer` (the 300 ms
timeout of `clearMouseStalker` is scheduled without storing its id, so it
is untracked), the stored `rafId` and `textTimer`, the registered
listeners and the next fresh id. -/
structure State where
  rafQueue : List ℕ
  timerQueue : List (ℕ × Bool)
  rafId : Option ℕ
  textTimer : Option ℕ
  listeners : List String
  nextId : ℕ
  deriving DecidableEq

/-- Footprint after `init()`: `bindEvents` registered five listeners and
`render()` requested one frame. -/
def init : State :=
  { rafQueue := [0], timerQueue := [], rafId := some 0, textTimer := none,
    listeners := ["pointermove", "pointerover", "pointerout",
                  "pointerleave", "blur"],
    nextId := 1 }

/-- The `if (this.textTimer) { clearTimeout(this.textTimer); this.textTimer = null; }`
prelude shared by `setText`, `clearText` and `destroy`. -/
def clearTextTimer (s : State) : State :=
  match s.textTimer with
  | some id =>
    { s with timerQueue := s.timerQueue.filter (fun e => e.1 ≠ id),
             textTimer := none }
  | none => s

/-- `clearText()`: cancel the tracked fade timer; when `currentText` is
nonempty, schedule a tracked 200 ms fade timer and store its id. -/
def clearText (hasCurrentText : Bool) (s : State) : State :=
  let s1 := clearTextTimer s
  if hasCurrentText then
    { s1 with timerQueue := s1.timerQueue ++ [(s1.nextId, true)],
              textTimer := some s1.nextId, nextId := s1.nextId + 1 }
  else s1

/-- `clearMouseStalker()` in the `alwaysVisible = false` configuration:
run `clearText`, hide the stalker, and schedule the 300 ms
class-removal timeout whose id is never stored (untracked). -/
def clearMouseStalker (hasCurrentText : Bool) (s : State) : State :=
  let s1 := clearText hasCurrentText s
  { s1 with timerQueue := s1.timerQueue ++ [(s1.nextId, false)],
            nextId := s1.nextId + 1 }

/-- The browser fires pending frame `id`: `update()` runs and, when the
stalker is still moving, requests the next frame. -/
def fireRaf (s : State) (id : ℕ) (reRegister : Bool) : State :=
  if reRegister then
    { s with rafQueue := s.rafQueue.filter (fun i => i ≠ id) ++ [s.nextId],
             rafId := some s.nextId, nextId := s.nextId + 1 }
  else
    { s with rafQueue := s.rafQueue.filter (fun i => i ≠ id) }

/-- The browser fires pending timeout `e`: a tracked fade callback nulls
`this.textTimer`; the untracked class-removal callback schedules
nothing. -/
def fireTimer (s : State) (e : ℕ × Bool) : State :=
  { s with timerQueue := s.timerQueue.filter (fun e2 => e2.1 ≠ e.1),
           textTimer := if e.2 then none else s.textTimer }

/-- `destroy()` (MouseStalker `destroy`): cancel the stored `rafId` and
the stored `textTimer`, unbind every listener, remove the container. -/
def destroy (s : State) : State :=
  { rafQueue :=
      match s.rafId with
      | some id => s.rafQueue.filter (fun i => i ≠ id)
      | none => s.rafQueue,
    timerQueue :=
      match s.textTimer with
      | some id => s.timerQueue.filter (fun e => e.1 ≠ id)
      | none => s.timerQueue,
    rafId := s.rafId, textTimer := s.textTimer, listeners := [],
    nextId := s.nextId }

/-- The ways the browser can run code of this instance. -/
inductive Step : State → State → Prop where
  | raf (s : State) (id : ℕ) (b : Bool) (h : id ∈ s.rafQueue) :
      Step s (fireRaf s id b)
  | listener (s : State) (ev : String) (h : ev ∈ s.listeners) : Step s s
  | timer (s : State) (e : ℕ × Bool) (h : e ∈ s.timerQueue) :
      Step s (fireTimer s e)

/-- Scheduler invariant: every pending frame is the stored `rafId`;
every tracked pending timeout is the stored `textTimer`, and no untracked
pending timeout has the stored `textTimer` id. -/
def Inv (s : State) : Prop :=
  (∀ i ∈ s.rafQueue, s.rafId = some i) ∧
    (∀ e ∈ s.timerQueue,
      (e.2 = true → s.textTimer = some e.1) ∧
        (e.2 = false → s.textTimer ≠ some e.1))

instance (s : State) : Decidable (Inv s) := by
  unfold Inv; infer_instance

end MSSched

namespace AccordionToggle

/-- An accordion item: whether it carries the active class, and the state
of its content element (`none`: no content element; `some a`: content
element present with aria-hidden attribute `a`). -/
structure Item where
  active : Bool
  ariaHidden : Option (Option String)
  deriving DecidableEq

/-- `open(item)`: set the content's aria-hidden attribute to `'false'`
when the content element exists. -/
def openItem (it : Item) : Item :=
  { it with ariaHidden := it.ariaHidden.map (fun _ => some "false") }

/-- `close(item)`: set the content's aria-hidden attribute to `'true'`
when the content element exists. -/
def closeItem (it : Item) : Item :=
  { it with ariaHidden := it.ariaHidden.map (fun _ => some "true") }

/-- `toggle(item, allItems)` with `item = allItems[k]`: when
`shouldOpenAll` is off and the item is not active, first remove the
active class from every other item and close it; then toggle the clicked
item (remove class and close, or add class and open). -/
def toggle (shouldOpenAll : Bool) {n : ℕ} (items : Fin n → Item) (k : Fin n) :
    Fin n → Item :=
  let isActive := (items k).active
  let items1 : Fin n → Item := fun j =>
    if shouldOpenAll = false ∧ isActive = false ∧ j ≠ k then
      closeItem { items j with active := false }
    else items j
  fun j =>
    if j = k then
      if isActive then closeItem { items1 k with active := false }
      else openItem { items1 k with active := true }
    else items1 j

/-- The number of items carrying the active class. -/
def countActive {n : ℕ} (items : Fin n → Item) : ℕ :=
  (Finset.univ.filter (fun j => (items j).active = true)).card

end AccordionToggle

namespace TextReveal

/-- Per-instance TextReveal state: the is-inview flag of each observed
element, and the `once` / `resetOnScrollUp` options. -/
structure State where
  inview : List Bool
  once : Bool
  resetOnScrollUp : Bool
  deriving DecidableEq

/-- `animateIn`: add the is-inview class to element `i`. -/
def animateIn (s : State) (i : ℕ) : State :=
  { s with inview := s.inview.set i true }

/-- `animateOut`: unless `once` is set, or the element left upward while
`resetOnScrollUp` is off, remove the is-inview class of element `i`. -/
def animateOut (s : State) (i : ℕ) (topNeg : Bool) : State :=
  if s.once then s
  else if s.resetOnScrollUp = false ∧ topNeg = true then s
  else { s with inview := s.inview.set i false }

/-- `handleIntersect` for one IntersectionObserver entry. -/
def handleIntersect (s : State) (i : ℕ) (isIntersecting topNeg : Bool) :
    State :=
  if isIntersecting then animateIn s i else animateOut s i topNeg

end TextReveal

namespace Page

/-- One `new Widget(selector, …)` call of the bootstrap `main()`. -/
structure Instantiation where
  widget : String
  selector : String
  deriving DecidableEq

/-- The widget instantiations `main()` performs at page load
(src/unnamed/part_000 lines 6-65). -/
def mainInstantiations : List Instantiation :=
  [{ widget := "LoopSlider", selector := ".js-loop-slider1" },
   { widget := "LoopSlider", selector := ".js-loop-slider2" },
   { widget := "MouseStalker", selector := "[data-mouse-stalker]" },
   { widget := "ScrollProgressAnimation", selector := ".js-scroll-container" },
   { widget := "TextReveal", selector := "h3" },
   { widget := "TextReveal", selector := "h2" }]

/-- Options of the first slider (`.js-loop-slider1`): speed 50, reverse,
effect 'scroll' (scrollSpeed keeps its 0.5 default), inertia 0.95. -/
def slider1Options : LoopSlider.Options :=
  { speed := 50, reverse := true, effectScroll := true,
    scrollSpeed := 1/2, inertia := 19/20 }

/-- Options of the second slider (`.js-loop-slider2`): speed 50, forward,
effect 'draggable', inertia 0.95. -/
def slider2Options : LoopSlider.Options :=
  { speed := 50, reverse := false, effectScroll := false,
    scrollSpeed := 1/2, inertia := 19/20 }

/-- The combined state of the six widget instances `main()` creates.
Each instance owns its component; there is no shared field. -/
structure PageState where
  slider1 : LoopSlider.State × Debounce.State
  slider2 : LoopSlider.State × Debounce.State
  stalker : MSSched.State
  scrollProgress : SPA.Instance
  reveal1 : TextReveal.State
  reveal2 : TextReveal.State

/-- Names of the six widget instances. -/
inductive WidgetId where
  | slider1 | slider2 | stalker | scrollProgress | reveal1 | reveal2
  deriving DecidableEq

/-- Events the page can deliver after load.  A window resize reaches the
resize listeners of both sliders; every other event reaches a single
instance. -/
inductive PageEvent where
  | slider1Frame (inp : LoopSlider.FrameInput)
  | slider2Frame (inp : LoopSlider.FrameInput)
  | resize
  | slider1ResizeFire (id : ℕ) (offsetWidth gap : ℚ) (numSlides : ℕ)
  | slider2ResizeFire (id : ℕ) (offsetWidth gap : ℚ) (numSlides : ℕ)
  | stalkerClear (hasText : Bool)
  | stalkerDestroy
  | spaInitEvent
  | reveal1Intersect (i : ℕ) (isIntersecting topNeg : Bool)
  | reveal2Intersect (i : ℕ) (isIntersecting topNeg : Bool)

/-- Apply the debounced `updateDimensions` of a slider: the timer leaves
the debounce footprint and the slider's dimensions are recomputed from
its own DOM subtree (claim C9: `baseX` is preserved, `totalWidth` is
refreshed). -/
def sliderDimensionsFire (c : LoopSlider.State × Debounce.State) (id : ℕ)
    (offsetWidth gap : ℚ) (numSlides : ℕ) :
    LoopSlider.State × Debounce.State :=
  let r := LoopSlider.updateDimensions offsetWidth gap numSlides c.1.baseX
  ({ c.1 with totalWidth := r.2.1, baseX := r.2.2 }, Debounce.fireTimer c.2 id)

/-- One event-loop step of the page: each widget's handler is a function
of that widget's own component only. -/
def stepPage (e : PageEvent) (p : PageState) : PageState :=
  match e with
  | .slider1Frame inp =>
    { p with slider1 :=
        ((LoopSlider.updatePosition slider1Options p.slider1.1 inp).1,
         p.slider1.2) }
  | .slider2Frame inp =>
    { p with slider2 :=
        ((LoopSlider.updatePosition slider2Options p.slider2.1 inp).1,
         p.slider2.2) }
  | .resize =>
    { p with slider1 := (p.slider1.1, Debounce.handleResize p.slider1.2),
             slider2 := (p.slider2.1, Debounce.handleResize p.slider2.2) }
  | .slider1ResizeFire id ow gap ns =>
    { p with slider1 := sliderDimensionsFire p.slider1 id ow gap ns }
  | .slider2ResizeFire id ow gap ns =>
    { p with slider2 := sliderDimensionsFire p.slider2 id ow gap ns }
  | .stalkerClear hasText =>
    { p with stalker := MSSched.clearMouseStalker hasText p.stalker }
  | .stalkerDestroy => { p with stalker := MSSched.destroy p.stalker }
  | .spaInitEvent => { p with scrollProgress := SPA.init p.scrollProgress }
  | .reveal1Intersect i ii tn =>
    { p with reveal1 := TextReveal.handleIntersect p.reveal1 i ii tn }
  | .reveal2Intersect i ii tn =>
    { p with reveal2 := TextReveal.handleIntersect p.reveal2 i ii tn }

/-- Run a sequence of page events. -/
def runPage (es : List PageEvent) (p : PageState) : PageState :=
  es.foldl (fun acc e => stepPage e acc) p

/-- Equality of the component owned by widget `j`. -/
def compEq (j : WidgetId) (p q : PageState) : Prop :=
  match j with
  | .slider1 => p.slider1 = q.slider1
  | .slider2 => p.slider2 = q.slider2
  | .stalker => p.stalker = q.stalker
  | .scrollProgress => p.scrollProgress = q.scrollProgress
  | .reveal1 => p.reveal1 = q.reveal1
  | .reveal2 => p.reveal2 = q.reveal2

/-- Two page states that differ at most in the internal state of widget
`i`. -/
def agreeExcept (i : WidgetId) (p q : PageState) : Prop :=
  ∀ j : WidgetId, j ≠ i → compEq j p q

/-- A concrete page state parameterized by the mouse-stalker component:
two sliders of total width 300 at rest, a valid scroll-progress instance
and two observed text-reveal elements. -/
def examplePage (ms : MSSched.State) : PageState :=
  { slider1 := (⟨-300, 0, 0, false, 0, 0, 300⟩, Debounce.startState),
    slider2 := (⟨-300, 0, 0, false, 0, 0, 300⟩, Debounce.startState),
    stalker := ms,
    scrollProgress := SPA.construct true true 2,
    reveal1 := { inview := [false, false], once := false,
                 resetOnScrollUp := false },
    reveal2 := { inview := [false], once := false, resetOnScrollUp := false } }

end Page

/-! ## Theorems -/

namespace LoopSlider

theorem loopCorrect_mem (W b d : ℚ) (hW : 0 < W) :
    -(2 * W) ≤ loopCorrect W b d + d ∧ loopCorrect W b d + d ≤ -W := by
  unfold loopCorrect
  by_cases h1 : b + d < -W * 2
  · rw [if_pos h1]
    have h2 : (-W * 2 - (b + d)) / W ≤ (⌈(-W * 2 - (b + d)) / W⌉ : ℚ) :=
      Int.le_ceil _
    have h3 : (⌈(-W * 2 - (b + d)) / W⌉ : ℚ) < (-W * 2 - (b + d)) / W + 1 :=
      Int.ceil_lt_add_one _
    have h4 : -W * 2 - (b + d) ≤ (⌈(-W * 2 - (b + d)) / W⌉ : ℚ) * W := by
      rw [div_le_iff₀ hW] at h2; exact h2
    have h5 : ((⌈(-W * 2 - (b + d)) / W⌉ : ℚ) - 1) * W < -W * 2 - (b + d) := by
      have h3' : (⌈(-W * 2 - (b + d)) / W⌉ : ℚ) - 1 < (-W * 2 - (b + d)) / W := by
        linarith
      rw [lt_div_iff₀ hW] at h3'; exact h3'
    constructor <;> nlinarith [h4, h5]
  · rw [if_neg h1]
    by_cases h2 : -W < b + d
    · rw [if_pos h2]
      have h3 : (b + d - -W) / W ≤ (⌈(b + d - -W) / W⌉ : ℚ) := Int.le_ceil _
      have h4 : (⌈(b + d - -W) / W⌉ : ℚ) < (b + d - -W) / W + 1 :=
        Int.ceil_lt_add_one _
      have h5 : b + d - -W ≤ (⌈(b + d - -W) / W⌉ : ℚ) * W := by
        rw [div_le_iff₀ hW] at h3; exact h3
      have h6 : ((⌈(b + d - -W) / W⌉ : ℚ) - 1) * W < b + d - -W := by
        have h4' : (⌈(b + d - -W) / W⌉ : ℚ) - 1 < (b + d - -W) / W := by linarith
        rw [lt_div_iff₀ hW] at h4'; exact h4'
      constructor <;> nlinarith [h5, h6]
    · rw [if_neg h2]
      constructor <;> [linarith; linarith]

theorem loopCorrect_sub_eq_int_mul (W b d : ℚ) :
    ∃ k : ℤ, loopCorrect W b d = b + W * (k : ℚ) := by
  unfold loopCorrect
  by_cases h1 : b + d < -W * 2
  · exact ⟨⌈(-W * 2 - (b + d)) / W⌉, by rw [if_pos h1]⟩
  · by_cases h2 : -W < b + d
    · exact ⟨-⌈(b + d - -W) / W⌉, by rw [if_neg h1, if_pos h2]; push_cast; ring⟩
    · exact ⟨0, by rw [if_neg h1, if_neg h2]; push_cast; ring⟩

end LoopSlider

/-- Claim C1: for every animation-frame update of LoopSlider with
`totalWidth > 0`, after the loop-range correction step the combined
position `baseX + dragX` lies in `[-2 * totalWidth, -totalWidth]`, for
every starting value of `baseX` and `dragX`. -/
theorem claim_C1_loop_range (opts : LoopSlider.Options) (s : LoopSlider.State)
    (inp : LoopSlider.FrameInput) (hW : 0 < s.totalWidth) :
    -(2 * s.totalWidth) ≤
        (LoopSlider.updatePosition opts s inp).1.baseX +
          (LoopSlider.updatePosition opts s inp).1.dragX ∧
      (LoopSlider.updatePosition opts s inp).1.baseX +
          (LoopSlider.updatePosition opts s inp).1.dragX ≤ -s.totalWidth := by
  have h := LoopSlider.loopCorrect_mem s.totalWidth
    (LoopSlider.advance opts s inp).baseX (LoopSlider.advance opts s inp).dragX hW
  simpa [LoopSlider.updatePosition] using h

/-- Claim C1 witness: a concrete frame (slider of total width 3, position
far left of the loop band) whose corrected position lands in `[-6, -3]`. -/
theorem claim_C1_loop_range_witness :
    (0 : ℚ) < (3 : ℚ) ∧
      (-(2 * (3 : ℚ)) ≤
          (LoopSlider.updatePosition
              ⟨50, false, false, 1/2, 19/20⟩
              ⟨-10, 0, 0, false, 0, 0, 3⟩
              ⟨0, 0, 1⟩).1.baseX +
            (LoopSlider.updatePosition
              ⟨50, false, false, 1/2, 19/20⟩
              ⟨-10, 0, 0, false, 0, 0, 3⟩
              ⟨0, 0, 1⟩).1.dragX ∧
        (LoopSlider.updatePosition
            ⟨50, false, false, 1/2, 19/20⟩
            ⟨-10, 0, 0, false, 0, 0, 3⟩
            ⟨0, 0, 1⟩).1.baseX +
          (LoopSlider.updatePosition
            ⟨50, false, false, 1/2, 19/20⟩
            ⟨-10, 0, 0, false, 0, 0, 3⟩
            ⟨0, 0, 1⟩).1.dragX ≤ -(3 : ℚ)) :=
  ⟨by norm_num,
   claim_C1_loop_range ⟨50, false, false, 1/2, 19/20⟩
     ⟨-10, 0, 0, false, 0, 0, 3⟩ ⟨0, 0, 1⟩ (by norm_num)⟩

/-- Claim C2: in every frame with `totalWidth > 0` the loop-range
correction changes `baseX` only by an integer multiple of `totalWidth`,
so the rendered position `finalX` after correction is congruent modulo
`totalWidth` to the pre-correction position `baseX + dragX`. -/
theorem claim_C2_loop_congruence (opts : LoopSlider.Options)
    (s : LoopSlider.State) (inp : LoopSlider.FrameInput)
    (hW : 0 < s.totalWidth) :
    ∃ k : ℤ,
      (LoopSlider.updatePosition opts s inp).2 -
          ((LoopSlider.advance opts s inp).baseX +
            (LoopSlider.advance opts s inp).dragX) =
        s.totalWidth * (k : ℚ) := by
  obtain ⟨k, hk⟩ := LoopSlider.loopCorrect_sub_eq_int_mul s.totalWidth
    (LoopSlider.advance opts s inp).baseX (LoopSlider.advance opts s inp).dragX
  refine ⟨k, ?_⟩
  simp only [LoopSlider.updatePosition, hk]
  ring

/-- Claim C2 witness: the congruence theorem applied at the concrete
frame of the C1 witness. -/
theorem claim_C2_loop_congruence_witness :
    (0 : ℚ) < (3 : ℚ) ∧
      ∃ k : ℤ,
        (LoopSlider.updatePosition
            ⟨50, false, false, 1/2, 19/20⟩
            ⟨-10, 0, 0, false, 0, 0, 3⟩
            ⟨0, 0, 1⟩).2 -
            ((LoopSlider.advance
                ⟨50, false, false, 1/2, 19/20⟩
                ⟨-10, 0, 0, false, 0, 0, 3⟩
                ⟨0, 0, 1⟩).baseX +
              (LoopSlider.advance
                ⟨50, false, false, 1/2, 19/20⟩
                ⟨-10, 0, 0, false, 0, 0, 3⟩
                ⟨0, 0, 1⟩).dragX) =
          (3 : ℚ) * (k : ℚ) :=
  ⟨by norm_num,
   claim_C2_loop_congruence ⟨50, false, false, 1/2, 19/20⟩
     ⟨-10, 0, 0, false, 0, 0, 3⟩ ⟨0, 0, 1⟩ (by norm_num)⟩

/-- Claim C9: `updateDimensions` leaves `baseX` exactly unchanged when the
freshly computed `totalWidth` is positive: it sets
`baseX = (baseX / totalWidth) * totalWidth` with the same `totalWidth` in
both operations, which is the identity. -/
theorem claim_C9_updateDimensions_baseX (offsetWidth gap : ℚ) (numSlides : ℕ)
    (baseX : ℚ) (hW : 0 < (offsetWidth + gap) * (numSlides : ℚ)) :
    (LoopSlider.updateDimensions offsetWidth gap numSlides baseX).2.2 = baseX := by
  unfold LoopSlider.updateDimensions
  rw [if_pos hW]
  exact div_mul_cancel₀ baseX (ne_of_gt hW)

/-- Claim C9 witness: a slider with slide width 100, gap 20 and 5 slides
keeps `baseX = -37` across `updateDimensions`. -/
theorem claim_C9_updateDimensions_baseX_witness :
    (0 : ℚ) < ((100 : ℚ) + 20) * ((5 : ℕ) : ℚ) ∧
      (LoopSlider.updateDimensions 100 20 5 (-37)).2.2 = -37 :=
  ⟨by norm_num, claim_C9_updateDimensions_baseX 100 20 5 (-37) (by norm_num)⟩

namespace ViteConfig

theorem suffix_trans_of_le {l1 l2 l : List Char} (h1 : l1 <:+ l)
    (h2 : l2 <:+ l) (hle : l1.length ≤ l2.length) : l1 <:+ l2 := by
  rw [← List.reverse_prefix] at h1 h2 ⊢
  exact List.prefix_of_prefix_length_le h1 h2 (by simpa using hle)

theorem image_any_false_of_css {n : String} (h : ".css".data <:+ n.data) :
    (imageSuffixes.any (fun suf => strEndsWith n suf)) = false := by
  rw [List.any_eq_false]
  intro suf hsuf
  fin_cases hsuf <;>
    simp only [strEndsWith, Bool.not_eq_true, ← Bool.bool_eq_false,
      List.isSuffixOf_iff_suffix] <;>
    intro hs
  · exact absurd (List.IsSuffix.eq_of_length
      (suffix_trans_of_le hs h (by decide)) (by decide)) (by decide)
  · exact absurd (List.IsSuffix.eq_of_length
      (suffix_trans_of_le hs h (by decide)) (by decide)) (by decide)
  · exact absurd (suffix_trans_of_le h hs (by decide)) (by decide)
  · exact absurd (List.IsSuffix.eq_of_length
      (suffix_trans_of_le hs h (by decide)) (by decide)) (by decide)
  · exact absurd (List.IsSuffix.eq_of_length
      (suffix_trans_of_le hs h (by decide)) (by decide)) (by decide)
  · exact absurd (suffix_trans_of_le h hs (by decide)) (by decide)

end ViteConfig

/-- Claim C4: the build configuration maps every source asset to an output
path determined by its file extension: names ending in `.gif`, `.jpg`,
`.jpeg`, `.png`, `.svg` or `.webp` go to `assets/image/[name][extname]`,
names ending in `.css` go to `assets/scss/[name][extname]`, every other
asset goes to `assets/[name][extname]`, and every entry or chunk script
goes to `assets/js/[name].js`. -/
theorem claim_C4_asset_paths (n : String) :
    ((∃ suf ∈ ViteConfig.imageSuffixes, suf.data <:+ n.data) →
        ViteConfig.assetFileNames (some n) = "assets/image/[name][extname]") ∧
      (".css".data <:+ n.data →
        ViteConfig.assetFileNames (some n) = "assets/scss/[name][extname]") ∧
      ((∀ suf ∈ ViteConfig.imageSuffixes, ¬ suf.data <:+ n.data) →
        ¬ ".css".data <:+ n.data →
        ViteConfig.assetFileNames (some n) = "assets/[name][extname]") ∧
      ViteConfig.entryFileNames = "assets/js/[name].js" ∧
      ViteConfig.chunkFileNames = "assets/js/[name].js" := by
  refine ⟨?_, ?_, ?_, rfl, rfl⟩
  · rintro ⟨suf, hmem, hsuf⟩
    have hany : (ViteConfig.imageSuffixes.any
        (fun suf => ViteConfig.strEndsWith n suf)) = true :=
      List.any_eq_true.mpr ⟨suf, hmem, by
        simpa [ViteConfig.strEndsWith, List.isSuffixOf_iff_suffix] using hsuf⟩
    simp only [ViteConfig.assetFileNames, Option.getD_some, hany, if_true]
  · intro hcss
    have hany := ViteConfig.image_any_false_of_css hcss
    have hc : ViteConfig.strEndsWith n ".css" = true := by
      simpa [ViteConfig.strEndsWith, List.isSuffixOf_iff_suffix] using hcss
    simp only [ViteConfig.assetFileNames, Option.getD_some, hany, hc,
      Bool.false_eq_true, if_false, if_true]
  · intro himg hcss
    have hany : (ViteConfig.imageSuffixes.any
        (fun suf => ViteConfig.strEndsWith n suf)) = false := by
      rw [List.any_eq_false]
      intro suf hmem
      simpa [ViteConfig.strEndsWith, List.isSuffixOf_iff_suffix] using
        himg suf hmem
    have hc : ViteConfig.strEndsWith n ".css" = false := by
      rw [Bool.eq_false_iff]
      intro hc'
      exact hcss (List.isSuffixOf_iff_suffix.mp hc')
    simp only [ViteConfig.assetFileNames, Option.getD_some, hany, hc,
      Bool.false_eq_true, if_false]

/-- Claim C4 witness: `a.png` goes to the image folder, `style.css` to the
scss folder, `font.woff2` to the generic asset folder. -/
theorem claim_C4_asset_paths_witness :
    ViteConfig.assetFileNames (some "a.png") = "assets/image/[name][extname]" ∧
      ViteConfig.assetFileNames (some "style.css") =
        "assets/scss/[name][extname]" ∧
      ViteConfig.assetFileNames (some "font.woff2") =
        "assets/[name][extname]" :=
  ⟨(claim_C4_asset_paths "a.png").1 ⟨".png", by decide, by decide⟩,
   (claim_C4_asset_paths "style.css").2.1 (by decide),
   (claim_C4_asset_paths "font.woff2").2.2.1 (by decide) (by decide)⟩

/-- Claim C3: when its expected DOM elements are absent each initializer
returns early (the embedded constructors are total functions, modelling
absence of exceptions) without mutating the DOM: the `Accordion`
constructor logs exactly one console warning and does not run `init` when
its selector matches no container; the `LoopSlider` constructor returns
silently (no effects) when the container is missing or it has no child
slides; `ScrollProgressAnimation.init()` returns the instance unchanged,
with no ScrollTriggers created, when the container, the progress element
or the items are missing. -/
theorem claim_C3_missing_elements :
    (∀ sel : String,
        AccordionInit.construct sel [] =
          (false,
           [Widget.Effect.consoleWarn
              ("Accordion: No elements found for selector \"" ++ sel ++ "\"")])) ∧
      (∀ (draggable : Bool) (container : Option ℕ),
        container = none ∨ container = some 0 →
        LoopSliderInit.construct draggable container = (false, [])) ∧
      (∀ (containerFound progressFound : Bool) (numItems : ℕ),
        containerFound = false ∨ progressFound = false ∨ numItems = 0 →
        SPA.init (SPA.construct containerFound progressFound numItems) =
            SPA.construct containerFound progressFound numItems ∧
          (SPA.init
              (SPA.construct containerFound progressFound numItems)).scrollTriggers
            = 0) := by
  refine ⟨fun sel => rfl, ?_, ?_⟩
  · rintro draggable container (rfl | rfl)
    · rfl
    · rfl
  · intro cf pf ni h
    have hv : SPA.isValid (SPA.construct cf pf ni) = false := by
      rcases h with rfl | rfl | rfl <;>
        simp [SPA.isValid, SPA.construct]
    have h1 : SPA.init (SPA.construct cf pf ni) = SPA.construct cf pf ni := by
      simp [SPA.init, hv]
    exact ⟨h1, by rw [h1]; rfl⟩

/-- Claim C3 witness: the three guards evaluated at concrete absent-DOM
inputs. -/
theorem claim_C3_missing_elements_witness :
    AccordionInit.construct ".js-accordion" [] =
        (false,
         [Widget.Effect.consoleWarn
            "Accordion: No elements found for selector \".js-accordion\""]) ∧
      LoopSliderInit.construct true none = (false, []) ∧
      SPA.init (SPA.construct true true 0) = SPA.construct true true 0 :=
  ⟨claim_C3_missing_elements.1 ".js-accordion",
   claim_C3_missing_elements.2.1 true none (Or.inl rfl),
   (claim_C3_missing_elements.2.2 true true 0 (Or.inr (Or.inr rfl))).1⟩

/-- Claim C10: when the user prefers reduced motion, or the pointer is not
fine, or `window`/`document` are undefined, the `MouseStalker`
constructor returns before creating any DOM element or registering any
listener: no elements created, nothing appended to the body, no
listeners, no animation frame requested. -/
theorem claim_C10_stalker_guards (env : MouseStalkerInit.Env)
    (h : env.hasWindow = false ∨ env.hasDocument = false ∨
      env.prefersReducedMotion = true ∨ env.pointerFine = false) :
    MouseStalkerInit.construct env = MouseStalkerInit.emptyResult := by
  unfold MouseStalkerInit.construct
  rcases h with h | h | h | h
  · rw [if_pos (Or.inl h)]
  · rw [if_pos (Or.inr h)]
  · by_cases hw : env.hasWindow = false ∨ env.hasDocument = false
    · rw [if_pos hw]
    · rw [if_neg hw, if_pos h]
  · by_cases hw : env.hasWindow = false ∨ env.hasDocument = false
    · rw [if_pos hw]
    · rw [if_neg hw]
      by_cases hr : env.prefersReducedMotion
      · rw [if_pos hr]
      · rw [if_neg hr, if_pos h]

/-- Claim C10 witness: with `prefers-reduced-motion` enabled the
constructor leaves document and window untouched. -/
theorem claim_C10_stalker_guards_witness :
    MouseStalkerInit.construct
        { hasWindow := true, hasDocument := true,
          prefersReducedMotion := true, pointerFine := true } =
      MouseStalkerInit.emptyResult :=
  claim_C10_stalker_guards
    { hasWindow := true, hasDocument := true,
      prefersReducedMotion := true, pointerFine := true }
    (Or.inr (Or.inr (Or.inl rfl)))

namespace Debounce

theorem handleResize_timers {s : State} (h : Inv s) :
    (handleResize s).timers = [(s.nextId, 150)] := by
  have hnil : (match s.resizeTimeout with
      | some id => s.timers.filter (fun e => e.1 ≠ id)
      | none => s.timers) = [] := by
    cases hrt : s.resizeTimeout with
    | none =>
      cases ht : s.timers with
      | nil => rfl
      | cons a l =>
        have h2 := h.1 a (by rw [ht]; exact List.mem_cons_self a l)
        rw [hrt] at h2
        cases h2
    | some id =>
      apply List.filter_eq_nil_iff.mpr
      intro a ha
      have h2 := h.1 a ha
      rw [hrt] at h2
      have h3 : a.1 = id := by injection h2 with h3; exact h3.symm
      simp [h3]
  simp only [handleResize, hnil, List.nil_append]

theorem inv_handleResize {s : State} (h : Inv s) : Inv (handleResize s) := by
  constructor
  · intro e he
    rw [handleResize_timers h] at he
    simp only [List.mem_singleton] at he
    subst he
    rfl
  · rw [handleResize_timers h]
    simp

theorem handleResize_updateCount (s : State) :
    (handleResize s).updateCount = s.updateCount := rfl

theorem iterate_updateCount (s : State) (n : ℕ) :
    (handleResize^[n] s).updateCount = s.updateCount := by
  induction n generalizing s with
  | zero => rfl
  | succ n ih =>
    rw [Function.iterate_succ_apply]
    rw [ih]
    exact handleResize_updateCount s

theorem inv_iterate (s : State) (n : ℕ) (h : Inv s) :
    Inv (handleResize^[n] s) := by
  induction n generalizing s with
  | zero => exact h
  | succ n ih =>
    rw [Function.iterate_succ_apply]
    exact ih _ (inv_handleResize h)

theorem iterate_timers (s : State) (n : ℕ) (h : Inv s) (hn : 1 ≤ n) :
    ∃ id, (handleResize^[n] s).timers = [(id, 150)] := by
  obtain ⟨m, rfl⟩ : ∃ m, n = m + 1 := ⟨n - 1, (Nat.succ_pred_eq_of_pos hn).symm⟩
  rw [Function.iterate_succ_apply']
  exact ⟨(handleResize^[m] s).nextId, handleResize_timers (inv_iterate s m h)⟩

theorem flushAll_singleton (s : State) (id : ℕ) (hs : s.timers = [(id, 150)]) :
    (flushAll s).updateCount = s.updateCount + 1 ∧ (flushAll s).timers = [] := by
  unfold flushAll
  rw [hs]
  simp only [List.foldl_cons, List.foldl_nil]
  unfold fireTimer
  rw [hs]
  simp

end Debounce

/-- Claim C6: LoopSlider's resize handling is debounced: every resize
event cancels the previously scheduled dimension recomputation and
schedules `updateDimensions` 150 ms later, at any moment at most one
`updateDimensions` call is pending, and a burst of `n ≥ 1` consecutive
resize events followed by letting the pending timer fire causes exactly
one recomputation. -/
theorem claim_C6_resize_debounce (s : Debounce.State) (n : ℕ)
    (hInv : Debounce.Inv s) (hn : 1 ≤ n) :
    ((Debounce.handleResize s).timers = [(s.nextId, 150)] ∧
        (Debounce.handleResize s).resizeTimeout = some s.nextId) ∧
      (Debounce.handleResize^[n] s).timers.length ≤ 1 ∧
      (Debounce.flushAll (Debounce.handleResize^[n] s)).updateCount =
          s.updateCount + 1 ∧
      (Debounce.flushAll (Debounce.handleResize^[n] s)).timers = [] := by
  obtain ⟨id, hid⟩ := Debounce.iterate_timers s n hInv hn
  have hcount := Debounce.iterate_updateCount s n
  have hfl := Debounce.flushAll_singleton _ id hid
  refine ⟨⟨Debounce.handleResize_timers hInv, rfl⟩, ?_, ?_, hfl.2⟩
  · rw [hid]; simp
  · rw [hfl.1, hcount]

/-- Claim C6 witness: three consecutive resize events from a fresh slider
leave one pending timer and, once it fires, exactly one recomputation. -/
theorem claim_C6_resize_debounce_witness :
    Debounce.Inv Debounce.startState ∧ 1 ≤ 3 ∧
      (Debounce.flushAll
          (Debounce.handleResize^[3] Debounce.startState)).updateCount =
        Debounce.startState.updateCount + 1 :=
  ⟨by decide, by norm_num,
   (claim_C6_resize_debounce Debounce.startState 3 (by decide)
     (by norm_num)).2.2.1⟩

/-- Claim C8 counterexample: `toggle` does not touch the other items when
the clicked item is already active, so with three items all carrying the
active class beforehand, toggling the first leaves two items active —
refuting "after any call to toggle at most one element of allItems
carries the active class". -/
theorem claim_C8_counterexample :
    ¬ (AccordionToggle.countActive
        (AccordionToggle.toggle false
          (fun _ : Fin 3 => { active := true, ariaHidden := none }) 0) ≤ 1) := by
  decide

/-- Claim C8 (amended): for an Accordion with `shouldOpenAll = false`,
when at most one element of `allItems` carries the active class before
the call (as in every state reachable from all-closed markup), then
after `toggle(item, allItems)` at most one element carries it; the
clicked item carries the active class after the call exactly when it did
not before; and `open`/`close` set the content's aria-hidden attribute to
`'false'`/`'true'` whenever the content element exists. -/
theorem claim_C8_amended {n : ℕ} (items : Fin n → AccordionToggle.Item)
    (k : Fin n) (hpre : AccordionToggle.countActive items ≤ 1) :
    AccordionToggle.countActive (AccordionToggle.toggle false items k) ≤ 1 ∧
      ((AccordionToggle.toggle false items k) k).active = !(items k).active ∧
      (∀ it : AccordionToggle.Item, it.ariaHidden.isSome →
        (AccordionToggle.openItem it).ariaHidden = some (some "false") ∧
          (AccordionToggle.closeItem it).ariaHidden = some (some "true")) := by
  refine ⟨?_, ?_, ?_⟩
  · rw [AccordionToggle.countActive, Finset.card_le_one]
    intro a ha b hb
    rw [Finset.mem_filter] at ha hb
    by_cases hA : (items k).active = true
    · have hak : a ≠ k := by
        intro h
        subst h
        simp [AccordionToggle.toggle, AccordionToggle.closeItem, hA] at ha
      have hbk : b ≠ k := by
        intro h
        subst h
        simp [AccordionToggle.toggle, AccordionToggle.closeItem, hA] at hb
      have ha2 : (items a).active = true := by
        have := ha.2
        simp [AccordionToggle.toggle, hak, hA] at this
        exact this
      have hb2 : (items b).active = true := by
        have := hb.2
        simp [AccordionToggle.toggle, hbk, hA] at this
        exact this
      rw [AccordionToggle.countActive, Finset.card_le_one] at hpre
      exact hpre a (Finset.mem_filter.mpr ⟨Finset.mem_univ a, ha2⟩)
        b (Finset.mem_filter.mpr ⟨Finset.mem_univ b, hb2⟩)
    · have hclosed : ∀ j, j ≠ k →
          ((AccordionToggle.toggle false items k) j).active = false := by
        intro j hj
        simp [AccordionToggle.toggle, hj, hA, AccordionToggle.closeItem]
      have hak : a = k := by
        by_contra hak
        rw [hclosed a hak] at ha
        exact absurd ha.2 (by simp)
      have hbk : b = k := by
        by_contra hbk
        rw [hclosed b hbk] at hb
        exact absurd hb.2 (by simp)
      rw [hak, hbk]
  · by_cases hA : (items k).active = true <;>
      simp [AccordionToggle.toggle, AccordionToggle.closeItem,
        AccordionToggle.openItem, hA]
  · intro it hit
    cases hAria : it.ariaHidden with
    | none => rw [hAria] at hit; cases hit
    | some a =>
      constructor <;>
        simp [AccordionToggle.openItem, AccordionToggle.closeItem, hAria]

/-- Claim C8 witness: a two-item accordion with exactly the first item
active keeps at most one item active when the second is toggled. -/
theorem claim_C8_amended_witness :
    AccordionToggle.countActive
        (fun j : Fin 2 =>
          if j = 0 then
            ({ active := true, ariaHidden := some none } : AccordionToggle.Item)
          else { active := false, ariaHidden := some (some "true") }) ≤ 1 ∧
      AccordionToggle.countActive
          (AccordionToggle.toggle false
            (fun j : Fin 2 =>
              if j = 0 then
                ({ active := true, ariaHidden := some none } :
                  AccordionToggle.Item)
              else { active := false, ariaHidden := some (some "true") }) 1) ≤ 1 :=
  ⟨by decide, (claim_C8_amended _ 1 (by decide)).1⟩

namespace LSSched

theorem destroy_rafQueue {s : State}
    (h : ∀ i ∈ s.rafQueue, s.animation = some i) :
    (destroy s).rafQueue = [] := by
  show (match s.animation with
    | some id => s.rafQueue.filter (fun i => i ≠ id)
    | none => s.rafQueue) = []
  cases ha : s.animation with
  | none =>
    cases hq : s.rafQueue with
    | nil => rfl
    | cons a l =>
      have h2 := h a (by rw [hq]; exact List.mem_cons_self a l)
      rw [ha] at h2
      cases h2
  | some id =>
    apply List.filter_eq_nil_iff.mpr
    intro a ha'
    have h2 := h a ha'
    rw [ha] at h2
    have h3 : a = id := by injection h2 with h3; exact h3.symm
    simp [h3]

theorem destroy_timerQueue {s : State}
    (h : ∀ i ∈ s.timerQueue, s.resizeTimeout = some i) :
    (destroy s).timerQueue = [] := by
  show (match s.resizeTimeout with
    | some id => s.timerQueue.filter (fun i => i ≠ id)
    | none => s.timerQueue) = []
  cases ha : s.resizeTimeout with
  | none =>
    cases hq : s.timerQueue with
    | nil => rfl
    | cons a l =>
      have h2 := h a (by rw [hq]; exact List.mem_cons_self a l)
      rw [ha] at h2
      cases h2
  | some id =>
    apply List.filter_eq_nil_iff.mpr
    intro a ha'
    have h2 := h a ha'
    rw [ha] at h2
    have h3 : a = id := by injection h2 with h3; exact h3.symm
    simp [h3]

theorem no_step_of_empty {s : State} (h1 : s.rafQueue = [])
    (h2 : s.timerQueue = []) (h3 : s.listeners = []) :
    ¬ ∃ s2, Step s s2 := by
  rintro ⟨s2, hs⟩
  cases hs with
  | raf id h => rw [h1] at h; exact absurd h (List.not_mem_nil id)
  | resize h => rw [h3] at h; exact absurd h (List.not_mem_nil _)
  | pointer ev h hne => rw [h3] at h; exact absurd h (List.not_mem_nil ev)
  | timer id h => rw [h2] at h; exact absurd h (List.not_mem_nil id)

end LSSched

namespace MSSched

theorem ms_destroy_rafQueue {s : State}
    (h : ∀ i ∈ s.rafQueue, s.rafId = some i) :
    (destroy s).rafQueue = [] := by
  show (match s.rafId with
    | some id => s.rafQueue.filter (fun i => i ≠ id)
    | none => s.rafQueue) = []
  cases ha : s.rafId with
  | none =>
    cases hq : s.rafQueue with
    | nil => rfl
    | cons a l =>
      have h2 := h a (by rw [hq]; exact List.mem_cons_self a l)
      rw [ha] at h2
      cases h2
  | some id =>
    apply List.filter_eq_nil_iff.mpr
    intro a ha'
    have h2 := h a ha'
    rw [ha] at h2
    have h3 : a = id := by injection h2 with h3; exact h3.symm
    simp [h3]

theorem ms_destroy_timerQueue {s : State}
    (h : ∀ e ∈ s.timerQueue,
      (e.2 = true → s.textTimer = some e.1) ∧
        (e.2 = false → s.textTimer ≠ some e.1)) :
    (destroy s).timerQueue = s.timerQueue.filter (fun e => !e.2) := by
  show (match s.textTimer with
    | some id => s.timerQueue.filter (fun e => e.1 ≠ id)
    | none => s.timerQueue) = s.timerQueue.filter (fun e => !e.2)
  cases ht : s.textTimer with
  | none =>
    symm
    apply List.filter_eq_self.mpr
    intro e he
    have h2 := h e he
    cases he2 : e.2 with
    | true =>
      have h3 := h2.1 he2
      rw [ht] at h3
      cases h3
    | false => simp [he2]
  | some id =>
    apply List.filter_congr
    intro e he
    have h2 := h e he
    cases he2 : e.2 with
    | true =>
      have h3 := h2.1 he2
      rw [ht] at h3
      have h4 : e.1 = id := by injection h3 with h4; exact h4.symm
      simp [he2, h4]
    | false =>
      have h3 := h2.2 he2
      rw [ht] at h3
      have h4 : e.1 ≠ id := fun hh => h3 (by rw [hh])
      simp [he2, h4]

theorem ms_no_step_of_empty {s : State} (h1 : s.rafQueue = [])
    (h2 : s.timerQueue = []) (h3 : s.listeners = []) :
    ¬ ∃ s2, Step s s2 := by
  rintro ⟨s2, hs⟩
  cases hs with
  | raf id b h => rw [h1] at h; exact absurd h (List.not_mem_nil id)
  | listener ev h => rw [h3] at h; exact absurd h (List.not_mem_nil ev)
  | timer e h => rw [h2] at h; exact absurd h (List.not_mem_nil e)

end MSSched

/-- Claim C5 counterexample: `clearMouseStalker` schedules a 300 ms
class-removal timeout without storing its id, and `destroy()` cancels
only the stored `rafId` and `textTimer`; so after hiding the stalker
once and then destroying the instance, a pending timeout of the instance
remains and the browser can still run one of its callbacks — refuting
"the pending requestAnimationFrame and any pending timeout are cancelled
and none of its callbacks run again". -/
theorem claim_C5_counterexample :
    (MSSched.destroy (MSSched.clearMouseStalker false MSSched.init)).timerQueue
        ≠ [] ∧
      ∃ s2, MSSched.Step
        (MSSched.destroy (MSSched.clearMouseStalker false MSSched.init)) s2 :=
  ⟨by decide, ⟨_, MSSched.Step.timer _ (1, false) (by decide)⟩⟩

/-- Claim C5 (amended): after `destroy()` on a LoopSlider instance the
instance has no pending animation frame, no pending timeout and no
registered listener, and no event-loop step of the instance is possible
— it never requests another frame and none of its callbacks run again.
After `destroy()` on a MouseStalker instance the pending animation frame
and the tracked text-fade timeout are cancelled and every listener is
removed, but the untracked 300 ms timeouts scheduled by
`clearMouseStalker` survive `destroy()`; only when no such untracked
timeout is pending is the instance fully quiescent. -/
theorem claim_C5_destroy (ls : LSSched.State) (ms : MSSched.State)
    (hls : LSSched.Inv ls) (hms : MSSched.Inv ms) :
    ((LSSched.destroy ls).rafQueue = [] ∧
        (LSSched.destroy ls).timerQueue = [] ∧
        (LSSched.destroy ls).listeners = [] ∧
        ¬ ∃ s2, LSSched.Step (LSSched.destroy ls) s2) ∧
      ((MSSched.destroy ms).rafQueue = [] ∧
        (MSSched.destroy ms).listeners = [] ∧
        (MSSched.destroy ms).timerQueue =
          ms.timerQueue.filter (fun e => !e.2) ∧
        (ms.timerQueue.filter (fun e => !e.2) = [] →
          ¬ ∃ s2, MSSched.Step (MSSched.destroy ms) s2)) := by
  have hraf := LSSched.destroy_rafQueue hls.1
  have htimer := LSSched.destroy_timerQueue hls.2
  have hmraf := MSSched.ms_destroy_rafQueue hms.1
  have hmtimer := MSSched.ms_destroy_timerQueue hms.2
  refine ⟨⟨hraf, htimer, rfl, LSSched.no_step_of_empty hraf htimer rfl⟩,
    hmraf, rfl, hmtimer, ?_⟩
  intro hempty
  exact MSSched.ms_no_step_of_empty hmraf (hmtimer.trans hempty) rfl

/-- Claim C5 witness: the destroy theorem applied to a freshly
initialized draggable LoopSlider and to a MouseStalker that has hidden
itself once (so one untracked timeout is pending). -/
theorem claim_C5_destroy_witness :
    LSSched.Inv (LSSched.init true) ∧
      MSSched.Inv (MSSched.clearMouseStalker false MSSched.init) ∧
      (LSSched.destroy (LSSched.init true)).listeners = [] ∧
      (MSSched.destroy (MSSched.clearMouseStalker false MSSched.init)).timerQueue
        = (MSSched.clearMouseStalker false MSSched.init).timerQueue.filter
            (fun e => !e.2) :=
  ⟨by decide, by decide,
   (claim_C5_destroy (LSSched.init true)
       (MSSched.clearMouseStalker false MSSched.init)
       (by decide) (by decide)).1.2.2.1,
   (claim_C5_destroy (LSSched.init true)
       (MSSched.clearMouseStalker false MSSched.init)
       (by decide) (by decide)).2.2.2.1⟩

namespace Page

theorem step_agreeExcept (e : PageEvent) (i : WidgetId) (p q : PageState)
    (h : agreeExcept i p q) :
    agreeExcept i (stepPage e p) (stepPage e q) := by
  intro j hj
  have hc := h j hj
  cases e <;> cases j <;> simp_all [stepPage, compEq]

theorem run_agreeExcept (es : List PageEvent) (i : WidgetId)
    (p q : PageState) (h : agreeExcept i p q) :
    agreeExcept i (runPage es p) (runPage es q) := by
  induction es generalizing p q with
  | nil => exact h
  | cons e es ih =>
    exact ih (stepPage e p) (stepPage e q) (step_agreeExcept e i p q h)

end Page

/-- Claim C7: the bootstrap `main()` instantiates each configured widget
exactly once per target selector (every instantiation in the list occurs
exactly once), and the widget instances neither read nor modify one
another's state: every page-event handler is a function of its own
widget's component only, so two runs that differ only in the internal
state of one widget agree on every other widget's state — and hence on
every other widget's behavior and output — after any sequence of page
events. -/
theorem claim_C7_main_independent :
    (∀ inst ∈ Page.mainInstantiations,
        (Page.mainInstantiations.filter (fun x => x = inst)).length = 1) ∧
      ∀ (es : List Page.PageEvent) (i : Page.WidgetId)
        (p q : Page.PageState),
        Page.agreeExcept i p q →
        Page.agreeExcept i (Page.runPage es p) (Page.runPage es q) :=
  ⟨by decide, fun es i p q h => Page.run_agreeExcept es i p q h⟩

/-- Claim C7 witness: two page states that differ only in the
mouse-stalker component still agree on all other widgets after a window
resize followed by a slider frame. -/
theorem claim_C7_main_independent_witness :
    Page.agreeExcept Page.WidgetId.stalker
        (Page.examplePage MSSched.init)
        (Page.examplePage (MSSched.destroy MSSched.init)) ∧
      Page.agreeExcept Page.WidgetId.stalker
        (Page.runPage
          [Page.PageEvent.resize, Page.PageEvent.slider1Frame ⟨1/60, 0, 1⟩]
          (Page.examplePage MSSched.init))
        (Page.runPage
          [Page.PageEvent.resize, Page.PageEvent.slider1Frame ⟨1/60, 0, 1⟩]
          (Page.examplePage (MSSched.destroy MSSched.init))) := by
  have hpre : Page.agreeExcept Page.WidgetId.stalker
      (Page.examplePage MSSched.init)
      (Page.examplePage (MSSched.destroy MSSched.init)) := by
    intro j hj
    cases j
    case stalker => exact absurd rfl hj
    all_goals rfl
  exact ⟨hpre,
    claim_C7_main_independent.2
      [Page.PageEvent.resize, Page.PageEvent.slider1Frame ⟨1/60, 0, 1⟩]
      Page.WidgetId.stalker _ _ hpre⟩
